import Mathlib

/-!
Verification of the Nexus Protocol relay server (src/server.py): session
registry, connection admission, per-role message relay, and disconnect
handling, shallowly embedded as pure state-passing functions.
-/

/-- Connections (WebSocket handles) are opaque; we identify them by number. -/
abbrev ConnId := Nat

/-- Python str.upper() on the ASCII session ids this server handles:
uppercase every character. -/
def pyUpper (s : String) : String := String.mk (s.data.map Char.toUpper)

/-- Python str.lower() on ASCII strings, used to state case-insensitive
comparisons of role names. -/
def pyLower (s : String) : String := String.mk (s.data.map Char.toLower)

/-- A JSON-like value, the payload type of decoded wire messages. -/
inductive JVal where
  | null : JVal
  | num (n : Int) : JVal
  | str (s : String) : JVal
  | arr (xs : List JVal) : JVal
  | obj (fields : List (String × JVal)) : JVal
deriving Repr

/-- A decoded inbound message: a JSON object, i.e. a field-name/value map
(the codec imposes no schema; field access defaults per call site). -/
abbrev Msg := List (String × JVal)

/-- Python dict.get(k, d): the value bound to the first occurrence of the
key, or the default when the key is absent. -/
def Msg.getD (m : Msg) (k : String) (d : JVal) : JVal :=
  match m with
  | [] => d
  | (k2, v) :: rest => if k2 = k then v else Msg.getD rest k d

/-- Mutable per-session payload, from the active_sessions value structure:
state.player_pos and state.spectre_action. -/
structure SessionState where
  player_pos : JVal
  spectre_action : JVal
deriving Repr

/-- Fresh session state: player_pos = [0, 0], spectre_action = None. -/
def defaultState : SessionState :=
  { player_pos := JVal.arr [JVal.num 0, JVal.num 0], spectre_action := JVal.null }

/-- One entry of active_sessions: the player1 and spectre connection slots
and the session state. -/
structure SessionRecord where
  player1 : Option ConnId
  spectre : Option ConnId
  state : SessionState
deriving Repr

/-- The process-wide active_sessions dict, as an association list keyed by
session id. -/
abbrev Registry := List (String × SessionRecord)

/-- Dict lookup: active_sessions.get(session_id). -/
def Registry.lookup (reg : Registry) (id : String) : Option SessionRecord :=
  match reg with
  | [] => none
  | (k, r) :: rest => if k = id then some r else Registry.lookup rest id

/-- Dict key removal: active_sessions.pop(session_id, None) discards every
binding for the id. -/
def Registry.erase (reg : Registry) (id : String) : Registry :=
  match reg with
  | [] => []
  | (k, r) :: rest =>
    if k = id then Registry.erase rest id else (k, r) :: Registry.erase rest id

/-- Dict assignment: active_sessions[session_id] = record (insert or
overwrite). -/
def Registry.set (reg : Registry) (id : String) (r : SessionRecord) : Registry :=
  (id, r) :: Registry.erase reg id

/-- Number of bindings a registry holds for an id (a dict holds at most
one; our association list makes the count explicit). -/
def Registry.countKey (reg : Registry) (id : String) : Nat :=
  match reg with
  | [] => 0
  | (k, _) :: rest =>
    if k = id then Registry.countKey rest id + 1 else Registry.countKey rest id

/-- Outbound server events, one constructor per json.dumps payload shape
sent by server.py. -/
inductive OutMsg where
  | error (message : String) : OutMsg
  | spectreStatus (status : String) : OutMsg
  | playerState (pos : JVal) (health : JVal) : OutMsg
  | spectreAction (action : JVal) (data : JVal) : OutMsg
  | gameOver (message : String) : OutMsg
deriving Repr

/-- A send_text call: target connection and payload. -/
abbrev Send := ConnId × OutMsg

/-- Result of the admission phase of websocket_endpoint: the registry
afterwards, the frames sent (in order), and the close code when the
connection was rejected (none when it proceeds to the relay loop). -/
structure ConnectResult where
  registry : Registry
  sends : List Send
  closeCode : Option Nat
deriving Repr

/-- Admission phase of websocket_endpoint (server.py lines 52-93):
uppercase the session id, validate the client type against the two literal
wire names, then create-or-attach for player1 or attach-or-reject for
spectre, notifying the bound player1 on a successful spectre attach. -/
def websocket_endpoint_connect (reg : Registry) (session_id client_type : String)
    (conn : ConnId) : ConnectResult :=
  let sid := pyUpper session_id
  if client_type = "player1" ∨ client_type = "spectre" then
    if client_type = "player1" then
      match Registry.lookup reg sid with
      | none =>
        { registry := Registry.set reg sid
            { player1 := some conn, spectre := none, state := defaultState }
          sends := []
          closeCode := none }
      | some s =>
        { registry := Registry.set reg sid { s with player1 := some conn }
          sends := []
          closeCode := none }
    else
      match Registry.lookup reg sid with
      | none =>
        { registry := reg
          sends := [(conn, OutMsg.error "Session ID invalide ou terminée.")]
          closeCode := some 1008 }
      | some s =>
        match s.spectre with
        | some _ =>
          { registry := reg
            sends := [(conn, OutMsg.error "Un Spectre est déjà connecté à cette session.")]
            closeCode := some 1008 }
        | none =>
          { registry := Registry.set reg sid { s with spectre := some conn }
            sends :=
              match s.player1 with
              | some p => [(p, OutMsg.spectreStatus "connected")]
              | none => []
            closeCode := none }
  else
    { registry := reg, sends := [], closeCode := some 1008 }

/-- Relay of one decoded player1 message (server.py lines 104-114): store
the position into the session state, then forward a player_state event to
the spectre when one is bound. -/
def relay_player1 (s : SessionRecord) (message : Msg) : SessionRecord × List Send :=
  let pos := Msg.getD message "player_pos" (JVal.arr [JVal.num 0, JVal.num 0])
  let s2 := { s with state := { s.state with player_pos := pos } }
  match s2.spectre with
  | some sp =>
    (s2, [(sp, OutMsg.playerState s2.state.player_pos (Msg.getD message "health" (JVal.num 100)))])
  | none => (s2, [])

/-- Relay of one decoded spectre message (server.py lines 117-127): read
the action and data fields and forward a spectre_action event to player1
when one is bound; the session state is not touched. -/
def relay_spectre (s : SessionRecord) (message : Msg) : SessionRecord × List Send :=
  let action := Msg.getD message "action" JVal.null
  let data_action := Msg.getD message "data" (JVal.obj [])
  match s.player1 with
  | some p => (s, [(p, OutMsg.spectreAction action data_action)])
  | none => (s, [])

/-- Transport-close handler (server.py lines 130-149, except
WebSocketDisconnect): player1 disconnect notifies a bound spectre with
game_over and removes the record; spectre disconnect clears the spectre
slot and notifies a bound player1 with spectre_status disconnected. -/
def handle_disconnect (reg : Registry) (sid client_type : String) : Registry × List Send :=
  match Registry.lookup reg sid with
  | none => (reg, [])
  | some s =>
    if client_type = "player1" then
      (Registry.erase reg sid,
        match s.spectre with
        | some sp => [(sp, OutMsg.gameOver "Le joueur principal a quitté la partie.")]
        | none => [])
    else if client_type = "spectre" then
      (Registry.set reg sid { s with spectre := none },
        match s.player1 with
        | some p => [(p, OutMsg.spectreStatus "disconnected")]
        | none => [])
    else (reg, [])

/-- Generic fatal-error handler (server.py lines 151-160, except
Exception): when the session still exists, a player1 fault removes the
record and a spectre fault clears the spectre slot; nothing is sent. -/
def handle_fatal_error (reg : Registry) (sid client_type : String) : Registry :=
  if (Registry.lookup reg sid).isSome then
    if client_type = "player1" then Registry.erase reg sid
    else if client_type = "spectre" then
      match Registry.lookup reg sid with
      | some s => Registry.set reg sid { s with spectre := none }
      | none => reg
    else reg
  else reg

/-- An undecodable inbound frame: json.loads raises, the relay loop is
aborted for this connection, and the except-Exception handler of lines
151-160 runs; it mutates the registry but sends no frame. -/
def handle_malformed (reg : Registry) (sid client_type : String) : Registry × List Send :=
  (handle_fatal_error reg sid client_type, [])

/-! Registry lemmas: dict semantics of the association-list operations. -/

theorem Registry.lookup_erase_self (reg : Registry) (id : String) :
    Registry.lookup (Registry.erase reg id) id = none := by
  induction reg with
  | nil => rfl
  | cons p rest ih =>
    obtain ⟨k, r⟩ := p
    by_cases h : k = id <;> simp [Registry.erase, Registry.lookup, h, ih]

theorem Registry.lookup_erase_ne (reg : Registry) (id id2 : String) (h : id2 ≠ id) :
    Registry.lookup (Registry.erase reg id) id2 = Registry.lookup reg id2 := by
  induction reg with
  | nil => rfl
  | cons p rest ih =>
    obtain ⟨k, r⟩ := p
    by_cases hk : k = id
    · subst hk
      simp [Registry.erase, Registry.lookup, ih, Ne.symm h]
    · by_cases hk2 : k = id2
      · subst hk2
        simp [Registry.erase, Registry.lookup, hk]
      · simp [Registry.erase, Registry.lookup, hk, hk2, ih]

theorem Registry.lookup_set_self (reg : Registry) (id : String) (r : SessionRecord) :
    Registry.lookup (Registry.set reg id r) id = some r := by
  simp [Registry.set, Registry.lookup]

theorem Registry.lookup_set_ne (reg : Registry) (id id2 : String) (r : SessionRecord)
    (h : id2 ≠ id) :
    Registry.lookup (Registry.set reg id r) id2 = Registry.lookup reg id2 := by
  simp [Registry.set, Registry.lookup, Ne.symm h, Registry.lookup_erase_ne reg id id2 h]

theorem Registry.countKey_erase_self (reg : Registry) (id : String) :
    Registry.countKey (Registry.erase reg id) id = 0 := by
  induction reg with
  | nil => rfl
  | cons p rest ih =>
    obtain ⟨k, r⟩ := p
    by_cases h : k = id <;> simp [Registry.erase, Registry.countKey, h, ih]

theorem Registry.countKey_set_self (reg : Registry) (id : String) (r : SessionRecord) :
    Registry.countKey (Registry.set reg id r) id = 1 := by
  simp [Registry.set, Registry.countKey, Registry.countKey_erase_self]

/-- C1: Observer admission contract. Against the normalized id, a spectre
join with no existing record sends a machine-readable error and closes
with code 1008 leaving the registry unchanged; a join against a record
whose spectre slot is occupied does the same with the other error payload;
otherwise the spectre slot is set to the joining connection and the bound
player1 connection is synchronously sent a spectre_status connected
event. -/
theorem observer_admission_contract (reg : Registry) (session_id : String) (conn : ConnId) :
    (Registry.lookup reg (pyUpper session_id) = none →
      websocket_endpoint_connect reg session_id "spectre" conn =
        { registry := reg
          sends := [(conn, OutMsg.error "Session ID invalide ou terminée.")]
          closeCode := some 1008 }) ∧
    (∀ s o, Registry.lookup reg (pyUpper session_id) = some s → s.spectre = some o →
      websocket_endpoint_connect reg session_id "spectre" conn =
        { registry := reg
          sends := [(conn, OutMsg.error "Un Spectre est déjà connecté à cette session.")]
          closeCode := some 1008 }) ∧
    (∀ s p, Registry.lookup reg (pyUpper session_id) = some s → s.spectre = none →
      s.player1 = some p →
      websocket_endpoint_connect reg session_id "spectre" conn =
        { registry := Registry.set reg (pyUpper session_id) { s with spectre := some conn }
          sends := [(p, OutMsg.spectreStatus "connected")]
          closeCode := none }) := by
  refine ⟨fun h => ?_, fun s o hs ho => ?_, fun s p hs ho hp => ?_⟩ <;>
    simp [websocket_endpoint_connect, *]

theorem observer_admission_contract_witness :
    (websocket_endpoint_connect [] "nx-1" "spectre" 5 =
      { registry := []
        sends := [(5, OutMsg.error "Session ID invalide ou terminée.")]
        closeCode := some 1008 }) ∧
    (websocket_endpoint_connect
        [("NX-1", { player1 := some 0, spectre := some 1, state := defaultState })]
        "nx-1" "spectre" 5 =
      { registry := [("NX-1", { player1 := some 0, spectre := some 1, state := defaultState })]
        sends := [(5, OutMsg.error "Un Spectre est déjà connecté à cette session.")]
        closeCode := some 1008 }) ∧
    (websocket_endpoint_connect
        [("NX-1", { player1 := some 0, spectre := none, state := defaultState })]
        "nx-1" "spectre" 5 =
      { registry := Registry.set
          [("NX-1", { player1 := some 0, spectre := none, state := defaultState })]
          (pyUpper "nx-1")
          { player1 := some 0, spectre := some 5, state := defaultState }
        sends := [(0, OutMsg.spectreStatus "connected")]
        closeCode := none }) :=
  ⟨(observer_admission_contract [] "nx-1" 5).1 rfl,
   (observer_admission_contract
      [("NX-1", { player1 := some 0, spectre := some 1, state := defaultState })] "nx-1" 5).2.1
     { player1 := some 0, spectre := some 1, state := defaultState } 1 rfl rfl,
   (observer_admission_contract
      [("NX-1", { player1 := some 0, spectre := none, state := defaultState })] "nx-1" 5).2.2
     { player1 := some 0, spectre := none, state := defaultState } 0 rfl rfl rfl⟩

/-- C2: Primary disconnect teardown. When the player1 transport closes on
a live session, the record is removed from the registry; a bound spectre
is sent a game_over event (and nothing is sent when none is bound); and
the id is immediately reusable: a subsequent spectre join fails with the
no-such-session error and close code 1008, while a fresh player1 join
creates a new record with default state. -/
theorem primary_disconnect_teardown (reg : Registry) (sid : String) (r : SessionRecord)
    (hr : Registry.lookup reg sid = some r) (hn : pyUpper sid = sid) :
    ((handle_disconnect reg sid "player1").1 = Registry.erase reg sid) ∧
    (Registry.lookup (handle_disconnect reg sid "player1").1 sid = none) ∧
    (∀ o, r.spectre = some o →
      (handle_disconnect reg sid "player1").2 =
        [(o, OutMsg.gameOver "Le joueur principal a quitté la partie.")]) ∧
    (r.spectre = none → (handle_disconnect reg sid "player1").2 = []) ∧
    (∀ c, websocket_endpoint_connect (handle_disconnect reg sid "player1").1 sid "spectre" c =
      { registry := (handle_disconnect reg sid "player1").1
        sends := [(c, OutMsg.error "Session ID invalide ou terminée.")]
        closeCode := some 1008 }) ∧
    (∀ c, websocket_endpoint_connect (handle_disconnect reg sid "player1").1 sid "player1" c =
      { registry := Registry.set (handle_disconnect reg sid "player1").1 sid
          { player1 := some c, spectre := none, state := defaultState }
        sends := []
        closeCode := none }) := by
  have h1 : (handle_disconnect reg sid "player1").1 = Registry.erase reg sid := by
    simp [handle_disconnect, hr]
  have h2 : Registry.lookup (handle_disconnect reg sid "player1").1 sid = none := by
    rw [h1]
    exact Registry.lookup_erase_self reg sid
  refine ⟨h1, h2, fun o ho => ?_, fun ho => ?_, fun c => ?_, fun c => ?_⟩
  · simp [handle_disconnect, hr, ho]
  · simp [handle_disconnect, hr, ho]
  · simp [websocket_endpoint_connect, hn, h2]
  · simp [websocket_endpoint_connect, hn, h2]

theorem primary_disconnect_teardown_witness :
    (Registry.lookup (handle_disconnect
        [("NX-1", { player1 := some 0, spectre := some 1, state := defaultState })]
        "NX-1" "player1").1 "NX-1" = none) ∧
    ((handle_disconnect
        [("NX-1", { player1 := some 0, spectre := some 1, state := defaultState })]
        "NX-1" "player1").2 =
      [(1, OutMsg.gameOver "Le joueur principal a quitté la partie.")]) ∧
    (websocket_endpoint_connect (handle_disconnect
        [("NX-1", { player1 := some 0, spectre := some 1, state := defaultState })]
        "NX-1" "player1").1 "NX-1" "spectre" 7 =
      { registry := (handle_disconnect
          [("NX-1", { player1 := some 0, spectre := some 1, state := defaultState })]
          "NX-1" "player1").1
        sends := [(7, OutMsg.error "Session ID invalide ou terminée.")]
        closeCode := some 1008 }) ∧
    (websocket_endpoint_connect (handle_disconnect
        [("NX-1", { player1 := some 0, spectre := some 1, state := defaultState })]
        "NX-1" "player1").1 "NX-1" "player1" 7 =
      { registry := Registry.set (handle_disconnect
            [("NX-1", { player1 := some 0, spectre := some 1, state := defaultState })]
            "NX-1" "player1").1 "NX-1"
          { player1 := some 7, spectre := none, state := defaultState }
        sends := []
        closeCode := none }) :=
  ⟨(primary_disconnect_teardown
      [("NX-1", { player1 := some 0, spectre := some 1, state := defaultState })] "NX-1"
      { player1 := some 0, spectre := some 1, state := defaultState } rfl rfl).2.1,
   (primary_disconnect_teardown
      [("NX-1", { player1 := some 0, spectre := some 1, state := defaultState })] "NX-1"
      { player1 := some 0, spectre := some 1, state := defaultState } rfl rfl).2.2.1 1 rfl,
   (primary_disconnect_teardown
      [("NX-1", { player1 := some 0, spectre := some 1, state := defaultState })] "NX-1"
      { player1 := some 0, spectre := some 1, state := defaultState } rfl rfl).2.2.2.2.1 7,
   (primary_disconnect_teardown
      [("NX-1", { player1 := some 0, spectre := some 1, state := defaultState })] "NX-1"
      { player1 := some 0, spectre := some 1, state := defaultState } rfl rfl).2.2.2.2.2 7⟩

/-- C3 fails as stated: with player1 connection 0 and spectre connection 1
both bound on session NX-1, an undecodable frame on the player1 connection
removes the record but sends the bound spectre no game_over event, and an
undecodable frame on the spectre connection clears the slot but sends the
bound player1 no spectre_status disconnected event — the except-Exception
path sends nothing, unlike the transport-close path. -/
theorem malformed_frame_no_notification_cex :
    (Registry.lookup
        [("NX-1", { player1 := some 0, spectre := some 1, state := defaultState })] "NX-1" =
      some { player1 := some 0, spectre := some 1, state := defaultState }) ∧
    (handle_malformed
        [("NX-1", { player1 := some 0, spectre := some 1, state := defaultState })]
        "NX-1" "player1" =
      (([] : Registry), ([] : List Send))) ∧
    (handle_malformed
        [("NX-1", { player1 := some 0, spectre := some 1, state := defaultState })]
        "NX-1" "spectre" =
      (([("NX-1", { player1 := some 0, spectre := none, state := defaultState })] : Registry),
        ([] : List Send))) :=
  ⟨rfl, rfl, rfl⟩

/-- C3 (amended): an undecodable inbound frame does not crash the process
and is fatal only for that connection; the registry mutation is exactly
the transport-close one — player1 fault removes the record, spectre fault
clears the observer slot — but no notification frame is sent to the peer
(no game_over, no spectre_status disconnected). -/
theorem malformed_frame_silent_teardown (reg : Registry) (sid : String) (r : SessionRecord)
    (hr : Registry.lookup reg sid = some r) :
    (handle_malformed reg sid "player1" = (Registry.erase reg sid, [])) ∧
    (handle_malformed reg sid "spectre" =
      (Registry.set reg sid { r with spectre := none }, [])) ∧
    ((handle_malformed reg sid "player1").1 = (handle_disconnect reg sid "player1").1) ∧
    ((handle_malformed reg sid "spectre").1 = (handle_disconnect reg sid "spectre").1) ∧
    ((handle_malformed reg sid "player1").2 = []) ∧
    ((handle_malformed reg sid "spectre").2 = []) := by
  refine ⟨?_, ?_, ?_, ?_, rfl, rfl⟩ <;>
    simp [handle_malformed, handle_fatal_error, handle_disconnect, hr]

theorem malformed_frame_silent_teardown_witness :
    (handle_malformed
        [("S", { player1 := some 2, spectre := some 3, state := defaultState })] "S" "player1" =
      (Registry.erase [("S", { player1 := some 2, spectre := some 3, state := defaultState })]
          "S",
        [])) ∧
    (handle_malformed
        [("S", { player1 := some 2, spectre := some 3, state := defaultState })] "S" "spectre" =
      (Registry.set [("S", { player1 := some 2, spectre := some 3, state := defaultState })] "S"
          { player1 := some 2, spectre := none, state := defaultState },
        [])) :=
  ⟨(malformed_frame_silent_teardown
      [("S", { player1 := some 2, spectre := some 3, state := defaultState })] "S"
      { player1 := some 2, spectre := some 3, state := defaultState } rfl).1,
   (malformed_frame_silent_teardown
      [("S", { player1 := some 2, spectre := some 3, state := defaultState })] "S"
      { player1 := some 2, spectre := some 3, state := defaultState } rfl).2.1⟩

/-- C4: Session-id normalization and primary create-or-attach. A player1
join with any casing of an id touches the uppercase-normalized key only:
with no record there it creates one with the joining connection as
player1, no spectre and default state; with an existing record it only
replaces the player1 slot, keeping the spectre slot and the state; it
never fails (close code none), and afterwards the registry holds exactly
one record for the normalized id. -/
theorem primary_create_or_attach (reg : Registry) (session_id : String) (conn : ConnId) :
    (Registry.lookup reg (pyUpper session_id) = none →
      websocket_endpoint_connect reg session_id "player1" conn =
        { registry := Registry.set reg (pyUpper session_id)
            { player1 := some conn, spectre := none, state := defaultState }
          sends := []
          closeCode := none }) ∧
    (∀ s, Registry.lookup reg (pyUpper session_id) = some s →
      websocket_endpoint_connect reg session_id "player1" conn =
        { registry := Registry.set reg (pyUpper session_id) { s with player1 := some conn }
          sends := []
          closeCode := none }) ∧
    ((websocket_endpoint_connect reg session_id "player1" conn).closeCode = none) ∧
    (Registry.lookup (websocket_endpoint_connect reg session_id "player1" conn).registry
        (pyUpper session_id) ≠ none) ∧
    (Registry.countKey (websocket_endpoint_connect reg session_id "player1" conn).registry
        (pyUpper session_id) = 1) := by
  refine ⟨fun h => ?_, fun s hs => ?_, ?_, ?_, ?_⟩
  · simp [websocket_endpoint_connect, h]
  · simp [websocket_endpoint_connect, hs]
  all_goals
    cases h : Registry.lookup reg (pyUpper session_id) with
    | none =>
      simp [websocket_endpoint_connect, h, Registry.lookup_set_self,
        Registry.countKey_set_self]
    | some s =>
      simp [websocket_endpoint_connect, h, Registry.lookup_set_self,
        Registry.countKey_set_self]

theorem primary_create_or_attach_witness :
    (websocket_endpoint_connect [] "nx-1" "player1" 4 =
      { registry := Registry.set [] (pyUpper "nx-1")
          { player1 := some 4, spectre := none, state := defaultState }
        sends := []
        closeCode := none }) ∧
    (websocket_endpoint_connect
        [("NX-1",
          { player1 := some 4
            spectre := some 6
            state := { player_pos := JVal.arr [JVal.num 3, JVal.num 4]
                       spectre_action := JVal.null } })]
        "Nx-1" "player1" 8 =
      { registry := Registry.set
          [("NX-1",
            { player1 := some 4
              spectre := some 6
              state := { player_pos := JVal.arr [JVal.num 3, JVal.num 4]
                         spectre_action := JVal.null } })]
          (pyUpper "Nx-1")
          { player1 := some 8
            spectre := some 6
            state := { player_pos := JVal.arr [JVal.num 3, JVal.num 4]
                       spectre_action := JVal.null } }
        sends := []
        closeCode := none }) :=
  ⟨(primary_create_or_attach [] "nx-1" 4).1 rfl,
   (primary_create_or_attach
      [("NX-1",
        { player1 := some 4
          spectre := some 6
          state := { player_pos := JVal.arr [JVal.num 3, JVal.num 4]
                     spectre_action := JVal.null } })]
      "Nx-1" 8).2.1
     { player1 := some 4
       spectre := some 6
       state := { player_pos := JVal.arr [JVal.num 3, JVal.num 4]
                  spectre_action := JVal.null } } rfl⟩

/-- C5: Primary-message relay. Relaying a decoded player1 message sets the
session state's player_pos to the message's player_pos field (default
[0, 0] when absent) and leaves the rest of the record untouched; when a
spectre is bound it is forwarded a player_state event carrying that
updated position and the inbound health field (default 100 when absent),
the health value landing only in the event, never in the state; when no
spectre is bound nothing is forwarded and the relay still succeeds. -/
theorem primary_message_relay (r : SessionRecord) (message : Msg) :
    ((relay_player1 r message).1.state.player_pos =
      Msg.getD message "player_pos" (JVal.arr [JVal.num 0, JVal.num 0])) ∧
    ((relay_player1 r message).1.state.spectre_action = r.state.spectre_action) ∧
    ((relay_player1 r message).1.player1 = r.player1) ∧
    ((relay_player1 r message).1.spectre = r.spectre) ∧
    (∀ sp, r.spectre = some sp →
      (relay_player1 r message).2 =
        [(sp, OutMsg.playerState
            (Msg.getD message "player_pos" (JVal.arr [JVal.num 0, JVal.num 0]))
            (Msg.getD message "health" (JVal.num 100)))]) ∧
    (r.spectre = none → (relay_player1 r message).2 = []) := by
  refine ⟨?_, ?_, ?_, ?_, fun sp hsp => ?_, fun hsp => ?_⟩ <;>
    cases h : r.spectre <;>
      simp_all [relay_player1]

theorem primary_message_relay_witness :
    ((relay_player1
        { player1 := some 0, spectre := some 1, state := defaultState }
        [("player_pos", JVal.arr [JVal.num 3, JVal.num 4]), ("health", JVal.num 80)]).2 =
      [(1, OutMsg.playerState (JVal.arr [JVal.num 3, JVal.num 4]) (JVal.num 80))]) ∧
    ((relay_player1
        { player1 := some 0, spectre := none, state := defaultState }
        [("player_pos", JVal.arr [JVal.num 3, JVal.num 4]), ("health", JVal.num 80)]).2 =
      []) ∧
    ((relay_player1
        { player1 := some 0, spectre := some 1, state := defaultState }
        [("player_pos", JVal.arr [JVal.num 5, JVal.num 5])]).2 =
      [(1, OutMsg.playerState (JVal.arr [JVal.num 5, JVal.num 5]) (JVal.num 100))]) :=
  ⟨(primary_message_relay
      { player1 := some 0, spectre := some 1, state := defaultState }
      [("player_pos", JVal.arr [JVal.num 3, JVal.num 4]),
       ("health", JVal.num 80)]).2.2.2.2.1 1 rfl,
   (primary_message_relay
      { player1 := some 0, spectre := none, state := defaultState }
      [("player_pos", JVal.arr [JVal.num 3, JVal.num 4]),
       ("health", JVal.num 80)]).2.2.2.2.2 rfl,
   (primary_message_relay
      { player1 := some 0, spectre := some 1, state := defaultState }
      [("player_pos", JVal.arr [JVal.num 5, JVal.num 5])]).2.2.2.2.1 1 rfl⟩

/-- C6: Observer-message relay and role purity. Relaying a decoded spectre
message reads the action field (absent meaning the null it defaults to)
and the data field (default empty object) and, when a player1 is bound,
forwards a spectre_action event carrying both verbatim; nothing is sent
when no player1 is bound. Role purity: a player1 message never yields a
spectre_action event and a spectre message never yields a player_state
event. -/
theorem observer_relay_role_purity (r : SessionRecord) (message : Msg) :
    (∀ p, r.player1 = some p →
      (relay_spectre r message).2 =
        [(p, OutMsg.spectreAction (Msg.getD message "action" JVal.null)
            (Msg.getD message "data" (JVal.obj [])))]) ∧
    (r.player1 = none → (relay_spectre r message).2 = []) ∧
    (∀ c a d, ¬ ((c, OutMsg.spectreAction a d) ∈ (relay_player1 r message).2)) ∧
    (∀ c pos h, ¬ ((c, OutMsg.playerState pos h) ∈ (relay_spectre r message).2)) := by
  refine ⟨fun p hp => ?_, fun hp => ?_, fun c a d => ?_, fun c pos h => ?_⟩
  · simp [relay_spectre, hp]
  · simp [relay_spectre, hp]
  · cases hs : r.spectre <;> simp [relay_player1, hs]
  · cases hp : r.player1 <;> simp [relay_spectre, hp]

theorem observer_relay_role_purity_witness :
    ((relay_spectre
        { player1 := some 0, spectre := some 1, state := defaultState }
        [("action", JVal.str "reveal"), ("data", JVal.obj [("x", JVal.num 3)])]).2 =
      [(0, OutMsg.spectreAction (JVal.str "reveal") (JVal.obj [("x", JVal.num 3)]))]) ∧
    ((relay_spectre
        { player1 := none, spectre := some 1, state := defaultState }
        [("action", JVal.str "reveal")]).2 = []) :=
  ⟨(observer_relay_role_purity
      { player1 := some 0, spectre := some 1, state := defaultState }
      [("action", JVal.str "reveal"), ("data", JVal.obj [("x", JVal.num 3)])]).1 0 rfl,
   (observer_relay_role_purity
      { player1 := none, spectre := some 1, state := defaultState }
      [("action", JVal.str "reveal")]).2.1 rfl⟩

/-- C7 fails as stated: role validation is case-sensitive. The client type
PLAYER1 matches the literal role name player1 case-insensitively, yet the
connection is rejected with close code 1008 and the registry is left
unchanged, where the claim requires admission to proceed past role
validation. -/
theorem role_validation_case_sensitivity_cex :
    (pyLower "PLAYER1" = "player1") ∧
    (websocket_endpoint_connect [] "nx-1" "PLAYER1" 0 =
      { registry := [], sends := [], closeCode := some 1008 }) :=
  ⟨rfl, rfl⟩

/-- C7 (amended): role validation is an exact, case-sensitive comparison:
admission proceeds past it exactly when the client type is literally
player1 or spectre; any other string is closed with the policy-violation
code 1008, with no frame sent and the registry untouched. A player1
connection passing validation is always admitted, and a spectre
connection passing validation is never closed without first receiving an
error frame (so its close code 1008 never stems from role validation). -/
theorem role_validation_exact (reg : Registry) (sid ct : String) (conn : ConnId) :
    (ct ≠ "player1" → ct ≠ "spectre" →
      websocket_endpoint_connect reg sid ct conn =
        { registry := reg, sends := [], closeCode := some 1008 }) ∧
    ((websocket_endpoint_connect reg sid "player1" conn).closeCode = none) ∧
    ((websocket_endpoint_connect reg sid "spectre" conn).closeCode = some 1008 →
      (websocket_endpoint_connect reg sid "spectre" conn).sends ≠ []) := by
  refine ⟨fun h1 h2 => ?_, ?_, ?_⟩
  · simp [websocket_endpoint_connect, h1, h2]
  · cases h : Registry.lookup reg (pyUpper sid) <;> simp [websocket_endpoint_connect, h]
  · cases h : Registry.lookup reg (pyUpper sid) with
    | none => simp [websocket_endpoint_connect, h]
    | some s =>
      cases hs : s.spectre <;> simp [websocket_endpoint_connect, h, hs]

theorem role_validation_exact_witness :
    (websocket_endpoint_connect [] "nx-1" "admin" 0 =
      { registry := [], sends := [], closeCode := some 1008 }) ∧
    ((websocket_endpoint_connect [] "nx-1" "player1" 0).closeCode = none) ∧
    ((websocket_endpoint_connect [] "nx-1" "spectre" 0).sends ≠ []) :=
  ⟨(role_validation_exact [] "nx-1" "admin" 0).1 (by decide) (by decide),
   (role_validation_exact [] "nx-1" "x" 0).2.1,
   (role_validation_exact [] "nx-1" "x" 0).2.2 rfl⟩

/-- C8: Observer disconnect frame. When the spectre transport closes on a
live session, only the spectre slot is cleared: the record stays in the
registry under the same id with its state (position and spectre-action
record) unchanged, and other ids are untouched; a bound player1 is sent a
spectre_status disconnected event (nothing is sent otherwise); and a
subsequent new spectre join against the same id is admitted. -/
theorem observer_disconnect_frame (reg : Registry) (sid : String) (r : SessionRecord)
    (hr : Registry.lookup reg sid = some r) (hn : pyUpper sid = sid) :
    ((handle_disconnect reg sid "spectre").1 =
      Registry.set reg sid { r with spectre := none }) ∧
    (Registry.lookup (handle_disconnect reg sid "spectre").1 sid =
      some { player1 := r.player1, spectre := none, state := r.state }) ∧
    (∀ id2, id2 ≠ sid →
      Registry.lookup (handle_disconnect reg sid "spectre").1 id2 =
        Registry.lookup reg id2) ∧
    (∀ p, r.player1 = some p →
      (handle_disconnect reg sid "spectre").2 = [(p, OutMsg.spectreStatus "disconnected")]) ∧
    (r.player1 = none → (handle_disconnect reg sid "spectre").2 = []) ∧
    (∀ c, (websocket_endpoint_connect (handle_disconnect reg sid "spectre").1 sid
        "spectre" c).closeCode = none) := by
  have h1 : (handle_disconnect reg sid "spectre").1 =
      Registry.set reg sid { r with spectre := none } := by
    simp [handle_disconnect, hr]
  have h2 : Registry.lookup (handle_disconnect reg sid "spectre").1 sid =
      some { player1 := r.player1, spectre := none, state := r.state } := by
    rw [h1, Registry.lookup_set_self]
  refine ⟨h1, h2, fun id2 hid => ?_, fun p hp => ?_, fun hp => ?_, fun c => ?_⟩
  · rw [h1]
    exact Registry.lookup_set_ne reg sid id2 { r with spectre := none } hid
  · simp [handle_disconnect, hr, hp]
  · simp [handle_disconnect, hr, hp]
  · rw [show (websocket_endpoint_connect (handle_disconnect reg sid "spectre").1 sid
        "spectre" c) = websocket_endpoint_connect
          (Registry.set reg sid { r with spectre := none }) sid "spectre" c by rw [h1]]
    simp [websocket_endpoint_connect, hn, Registry.lookup_set_self]

theorem observer_disconnect_frame_witness :
    (Registry.lookup (handle_disconnect
        [("NX-2", { player1 := some 0, spectre := some 1, state := defaultState })]
        "NX-2" "spectre").1 "NX-2" =
      some { player1 := some 0, spectre := none, state := defaultState }) ∧
    ((handle_disconnect
        [("NX-2", { player1 := some 0, spectre := some 1, state := defaultState })]
        "NX-2" "spectre").2 = [(0, OutMsg.spectreStatus "disconnected")]) ∧
    ((websocket_endpoint_connect (handle_disconnect
        [("NX-2", { player1 := some 0, spectre := some 1, state := defaultState })]
        "NX-2" "spectre").1 "NX-2" "spectre" 9).closeCode = none) :=
  ⟨(observer_disconnect_frame
      [("NX-2", { player1 := some 0, spectre := some 1, state := defaultState })] "NX-2"
      { player1 := some 0, spectre := some 1, state := defaultState } rfl rfl).2.1,
   (observer_disconnect_frame
      [("NX-2", { player1 := some 0, spectre := some 1, state := defaultState })] "NX-2"
      { player1 := some 0, spectre := some 1, state := defaultState } rfl rfl).2.2.2.1 0 rfl,
   (observer_disconnect_frame
      [("NX-2", { player1 := some 0, spectre := some 1, state := defaultState })] "NX-2"
      { player1 := some 0, spectre := some 1, state := defaultState } rfl rfl).2.2.2.2.2 9⟩

/-- C9 fails as stated: the spectre message with action reveal is relayed
(the spectre_action event is forwarded to player1), yet the session
state's spectre_action field still holds its initial null afterwards, not
the relayed action. -/
theorem spectre_action_not_stored_cex :
    ((relay_spectre { player1 := some 0, spectre := some 1, state := defaultState }
        [("action", JVal.str "reveal")]).2 =
      [(0, OutMsg.spectreAction (JVal.str "reveal") (JVal.obj []))]) ∧
    ((relay_spectre { player1 := some 0, spectre := some 1, state := defaultState }
        [("action", JVal.str "reveal")]).1.state.spectre_action = JVal.null) ∧
    (JVal.null ≠ JVal.str "reveal") :=
  ⟨rfl, rfl, fun h => JVal.noConfusion h⟩

/-- C9 (amended): the state's spectre_action field starts empty (null) at
session creation and is never updated: relaying a spectre message leaves
the whole session record, its state included, unchanged; the action is
only forwarded, never stored. -/
theorem spectre_action_never_updated (r : SessionRecord) (message : Msg) :
    ((relay_spectre r message).1 = r) ∧
    (defaultState.spectre_action = JVal.null) := by
  constructor
  · cases h : r.player1 <;> simp [relay_spectre, h]
  · rfl

/-- C10: Primary rejoin is silent. A player1 join against an existing
record for the normalized id replaces only the player1 slot — the spectre
slot and the state are kept — and sends no frame to anyone: neither the
bound spectre nor the rejoining player1 is notified, unlike the
spectre_status connected event of observer admission. -/
theorem primary_rejoin_silent (reg : Registry) (session_id : String) (conn : ConnId)
    (r : SessionRecord) (hr : Registry.lookup reg (pyUpper session_id) = some r) :
    websocket_endpoint_connect reg session_id "player1" conn =
      { registry := Registry.set reg (pyUpper session_id) { r with player1 := some conn }
        sends := []
        closeCode := none } := by
  simp [websocket_endpoint_connect, hr]

theorem primary_rejoin_silent_witness :
    websocket_endpoint_connect
        [("NX-9", { player1 := some 4, spectre := some 6, state := defaultState })]
        "nx-9" "player1" 9 =
      { registry := Registry.set
          [("NX-9", { player1 := some 4, spectre := some 6, state := defaultState })]
          (pyUpper "nx-9")
          { player1 := some 9, spectre := some 6, state := defaultState }
        sends := []
        closeCode := none } :=
  primary_rejoin_silent
    [("NX-9", { player1 := some 4, spectre := some 6, state := defaultState })]
    "nx-9" 9 { player1 := some 4, spectre := some 6, state := defaultState } rfl
